import Mathlib

/-!
Verification development for the localisation engine of BEE2.4
(src/localisation.py): the translation-token model, the dummy diagnostic
translator, the external basemodui catalog loader and the language-switch
refresh pass, shallowly embedded in Lean.  Python strings are modelled as
Lean `String` (sequences of code points), Python dicts as association
lists, fallible code returns `Except`.
-/

/-! ## Named character constants used throughout the embedding -/

/-- The hash character used by the dummy translator. -/
def hashChar : Char := '#'

/-- Left curly brace. -/
def lbrace : Char := Char.ofNat 123

/-- Right curly brace. -/
def rbrace : Char := Char.ofNat 125

/-- Apostrophe. -/
def apos : Char := Char.ofNat 39

/-- Backslash. -/
def bslash : Char := Char.ofNat 92

/-- Double quote. -/
def quoteChar : Char := Char.ofNat 34

/-! ## Python values and exceptions

Token parameters map names to arbitrary Python objects; the program only
ever stores strings and integers in them, so the embedding models exactly
those. -/

/-- A Python value stored in a token's parameter mapping. -/
inductive PyVal where
  | str (s : String)
  | int (n : Int)
deriving DecidableEq, Repr

/-- Python exceptions raised by the embedded code.  Each constructor stands
for one raise site / exception value of the source:
* `keyError k` — `KeyError(k)` from `str.format_map` on a missing field;
* `indexError` — `IndexError` from `str.format_map` on an empty or
  positional replacement field (no positional arguments are supplied);
* `valueErrorPluralMissing` — `ValueError` raised by
  `PluralTransToken.__str__` when the `n` parameter is absent, message
  `Plural token requires "n" parameter!`;
* `valueErrorIntLiteral s` — `ValueError` raised by `int()` when `s` is not
  a valid integer literal;
* `valueErrorNamespaceNotAllowed ns` — `ValueError` raised by
  `PluralTransToken.__str__` for a namespace other than UI/untranslated;
* `valueErrorSingleLbrace` / `valueErrorSingleRbrace` — `ValueError` from
  `str.format_map` on an unmatched brace. -/
inductive PyErr where
  | keyError (k : String)
  | indexError
  | valueErrorPluralMissing
  | valueErrorIntLiteral (s : String)
  | valueErrorNamespaceNotAllowed (ns : String)
  | valueErrorSingleLbrace
  | valueErrorSingleRbrace
deriving DecidableEq, Repr

deriving instance DecidableEq for Except

/-- Python `str(value)` for the values that occur in parameter mappings. -/
def pyValStr : PyVal → String
  | .str s => s
  | .int n => toString n

/-- ASCII model of Python `str.isspace` on a single character. -/
def pyIsSpaceChar (c : Char) : Bool :=
  c = ' ' || c = Char.ofNat 9 || c = Char.ofNat 10 || c = Char.ofNat 11 ||
  c = Char.ofNat 12 || c = Char.ofNat 13

/-- Python `s.isspace()`: true iff `s` is non-empty and all characters are
whitespace. -/
def pyIsSpace (s : String) : Bool :=
  !s.data.isEmpty && s.data.all pyIsSpaceChar

/-- Strip leading and trailing whitespace (used by Python `int(str)`). -/
def stripWs (cs : List Char) : List Char :=
  ((cs.dropWhile pyIsSpaceChar).reverse.dropWhile pyIsSpaceChar).reverse

/-- Numeric value of a digit string. -/
def digitsVal (cs : List Char) : Nat :=
  cs.foldl (fun a c => a * 10 + (c.toNat - 48)) 0

/-- Python `int(s)` on a string: optional surrounding whitespace, optional
sign, then at least one decimal digit (digit-group underscores, which the
program never uses, are not modelled). `none` models the `ValueError`. -/
def pyIntOfChars (cs : List Char) : Option Int :=
  match stripWs cs with
  | [] => none
  | c :: rest =>
    if c = '+' then
      if !rest.isEmpty && rest.all Char.isDigit then some (Int.ofNat (digitsVal rest)) else none
    else if c = '-' then
      if !rest.isEmpty && rest.all Char.isDigit then some (-(Int.ofNat (digitsVal rest))) else none
    else
      if (c :: rest).all Char.isDigit then some (Int.ofNat (digitsVal (c :: rest))) else none

/-- Python `int(v)` for the modelled values: identity on ints, literal
parsing on strings. -/
def pyInt : PyVal → Option Int
  | .int n => some n
  | .str s => pyIntOfChars s.data

/-! ## Parameter mappings (Python dicts) -/

/-- A token's parameter mapping, as an insertion-ordered association list;
Python guarantees the keys are distinct. -/
abbrev Params := List (String × PyVal)

/-- Python dict equality: the same set of key/value pairs, order
irrelevant. -/
def dictEq (p q : Params) : Bool :=
  p.all (fun kv => q.lookup kv.1 == some kv.2) &&
  q.all (fun kv => p.lookup kv.1 == some kv.2)

/-- The keys of an association list are pairwise distinct (the invariant
every Python dict satisfies). -/
def keysNodupb : Params → Bool
  | [] => true
  | (k, _) :: rest => rest.all (fun kv => kv.1 != k) && keysNodupb rest

/-- Python `d[k] = v` on an insertion-ordered association list: overwrite
in place, or append. -/
def dictInsert (k : String) (v : String) : List (String × String) → List (String × String)
  | [] => [(k, v)]
  | (k2, v2) :: rest => if k2 == k then (k2, v) :: rest else (k2, v2) :: dictInsert k v rest

/-! ## `str.format_map`

Model of Python named-placeholder substitution as used by the program:
replacement fields are bare names (the program's tokens use no conversion
or format specifications), doubled braces are escapes, an unmatched brace
raises `ValueError`, a missing name raises `KeyError`, and an empty or
positional (all-digit) field raises `IndexError` because no positional
arguments are supplied. -/

mutual

/-- Main scan of the format string. -/
def fmGo (ps : Params) : List Char → Except PyErr (List Char)
  | [] => .ok []
  | c :: cs =>
    if c = lbrace then
      match cs with
      | [] => .error .valueErrorSingleLbrace
      | d :: cs2 =>
        if d = lbrace then do
          let t ← fmGo ps cs2
          .ok (lbrace :: t)
        else
          fmField ps (d :: cs2) []
    else if c = rbrace then
      match cs with
      | d :: cs2 =>
        if d = rbrace then do
          let t ← fmGo ps cs2
          .ok (rbrace :: t)
        else .error .valueErrorSingleRbrace
      | [] => .error .valueErrorSingleRbrace
    else do
      let t ← fmGo ps cs
      .ok (c :: t)

/-- Collect a replacement-field name up to the closing brace, then emit the
looked-up value. -/
def fmField (ps : Params) (cs : List Char) (acc : List Char) : Except PyErr (List Char) :=
  match cs with
  | [] => .error .valueErrorSingleLbrace
  | c :: rest =>
    if c = rbrace then
      let name := String.mk acc.reverse
      if acc.isEmpty || acc.all Char.isDigit then .error .indexError
      else
        match ps.lookup name with
        | none => .error (.keyError name)
        | some v => do
          let t ← fmGo ps rest
          .ok ((pyValStr v).data ++ t)
    else fmField ps rest (c :: acc)

end

/-- Python `result.format_map(parameters)`. -/
def pyFormatMap (s : String) (ps : Params) : Except PyErr String :=
  (fmGo ps s.data).map String.mk

/-! ## Namespace sentinels (src/localisation.py lines 27-31) -/

/-- Our UI translations (source constant `NS_UI = '<BEE2>'`). -/
def NS_UI : String := "<BEE2>"

/-- Lookup from basemodui.txt (source constant `NS_GAME = '<PORTAL2>'`). -/
def NS_GAME : String := "<PORTAL2>"

/-- Legacy values without translation (`NS_UNTRANSLATED = '<NOTRANSLATE>'`). -/
def NS_UNTRANSLATED : String := "<NOTRANSLATE>"

/-- The prefix for all Valve editor keys (`PETI_KEY_PREFIX`). -/
def PETI_KEY_PREFIX : String := "PORTAL2_PuzzleEditor"

/-! ## The token model

`TransToken`, `PluralTransToken` and `JoinTransToken` of the source are an
inheritance hierarchy; the embedding is the corresponding tagged union.
`plain` is a bare `TransToken`, `plural` adds `token_plural`, `join` adds
`children` and `sort`.  The attrs converter canonicalises a falsy
parameter mapping to `EmptyMapping`; the empty list is the corresponding
canonical value here. -/

inductive TransToken where
  | plain (ns token : String) (parameters : Params)
  | plural (ns token : String) (parameters : Params) (token_plural : String)
  | join (ns token : String) (parameters : Params) (children : List TransToken) (sorted : Bool)
deriving Repr

/-- The `token` field shared by all three variants. -/
def tokenOf : TransToken → String
  | .plain _ tok _ => tok
  | .plural _ tok _ _ => tok
  | .join _ tok _ _ _ => tok

/-- `TransToken.ui`: a token for a UI string. -/
def TransTokenUi (token : String) (kwargs : Params) : TransToken :=
  .plain NS_UI token kwargs

/-- `TransToken.untranslated`: the token is the literal text to use. -/
def TransTokenUntranslated (text : String) : TransToken :=
  .plain NS_UNTRANSLATED text []

/-- `TransToken.__bool__`: a token is truthy iff its key is neither empty
nor whitespace-only. -/
def boolTok (t : TransToken) : Bool :=
  tokenOf t != "" && !(pyIsSpace (tokenOf t))

mutual

/-- The `__eq__` methods of the three classes.  `type(other) is ...`
restricts each to its exact class, so cross-variant comparison is false.
`TransToken.__eq__` compares namespace, token and parameters (dict
equality); `PluralTransToken.__eq__` additionally `token_plural`;
`JoinTransToken.__eq__` compares namespace, token and children — it reads
neither `parameters` nor `sort`. -/
def tokEq : TransToken → TransToken → Bool
  | .plain ns1 t1 p1, .plain ns2 t2 p2 =>
      ns1 == ns2 && t1 == t2 && dictEq p1 p2
  | .plural ns1 t1 p1 tp1, .plural ns2 t2 p2 tp2 =>
      ns1 == ns2 && t1 == t2 && tp1 == tp2 && dictEq p1 p2
  | .join ns1 t1 _ c1 _, .join ns2 t2 _ c2 _ =>
      ns1 == ns2 && t1 == t2 && listTokEq c1 c2
  | _, _ => false

/-- Python list equality on children, element-wise via `tokEq`. -/
def listTokEq : List TransToken → List TransToken → Bool
  | [], [] => true
  | a :: as2, b :: bs2 => tokEq a b && listTokEq as2 bs2
  | _, _ => false

end

/-- The value fed to Python `hash()` by the three `__hash__` methods: a
tuple of the fields, parameters as `frozenset(parameters.items())`, and
for `JoinTransToken` the children's own hashes spliced into the tuple
(`hash((self.namespace, self.token, *self.children))`).  Equal inputs to
`hash` give equal Python hashes. -/
inductive HashV where
  | base (ns tok : String) (ps : Finset (String × PyVal))
  | pluralH (ns tok tokPlural : String) (ps : Finset (String × PyVal))
  | joinH (ns tok : String) (children : List HashV)

mutual

/-- The hash input built by `__hash__` for each variant. -/
def tokHash : TransToken → HashV
  | .plain ns tok ps => .base ns tok ps.toFinset
  | .plural ns tok ps tp => .pluralH ns tok tp ps.toFinset
  | .join ns tok _ cs _ => .joinH ns tok (tokHashList cs)

/-- Hash inputs of a children list. -/
def tokHashList : List TransToken → List HashV
  | [] => []
  | t :: ts => tokHash t :: tokHashList ts

end

mutual

/-- Well-formedness a Python-built token always has: every parameter
mapping (also inside Join children) has pairwise distinct keys. -/
def tokWF : TransToken → Bool
  | .plain _ _ ps => keysNodupb ps
  | .plural _ _ ps _ => keysNodupb ps
  | .join _ _ ps cs _ => keysNodupb ps && tokWFList cs

/-- Well-formedness of a children list. -/
def tokWFList : List TransToken → Bool
  | [] => true
  | t :: ts => tokWF t && tokWFList ts

end

/-! ## Translators

The active `_TRANSLATOR` is a `NullTranslations`, a `DummyTranslations`,
or a `GNUTranslations` compiled from a `.mo` file. -/

/-- `DummyTranslations.gettext`: replace every alphanumeric or brace
character with `#`, keep everything else ("We don't want to leave {arr}
intact"). -/
def dummySub (message : String) : String :=
  String.mk (message.data.map fun s =>
    if s.isAlphanum || s = lbrace || s = rbrace then hashChar else s)

/-- A compiled catalog, modelled at the gettext library boundary:
`catalog` backs `gettext`, `pluralCatalog` backs `ngettext` keyed by
(singular msgid, plural index). -/
structure GNUCatalog where
  catalog : List (String × String)
  pluralCatalog : List ((String × Int) × String)
deriving DecidableEq, Repr

/-- The active translator object. -/
inductive Translator where
  | null
  | dummy
  | gnu (cat : GNUCatalog)
deriving DecidableEq, Repr

/-- `isinstance(_TRANSLATOR, DummyTranslations)`. -/
def Translator.isDummy : Translator → Bool
  | .dummy => true
  | _ => false

/-- `_TRANSLATOR.gettext`: `NullTranslations` echoes its input,
`DummyTranslations` substitutes placeholders, `GNUTranslations` looks up
the catalog and falls back to the message. -/
def Translator.gettext : Translator → String → String
  | .null, m => m
  | .dummy, m => dummySub m
  | .gnu c, m => ((c.catalog.lookup m).getD m)

/-- `_TRANSLATOR.ngettext`, modelled at the library boundary with the
default germanic plural rule (index 1 unless n = 1), falling back to the
supplied msgids. -/
def Translator.ngettext : Translator → String → String → Int → String
  | .null, m1, m2, n => if n == 1 then m1 else m2
  | .dummy, m1, m2, n => dummySub (if n == 1 then m1 else m2)
  | .gnu c, m1, m2, n =>
      ((c.pluralCatalog.lookup (m1, if n == 1 then (0 : Int) else 1)).getD
        (if n == 1 then m1 else m2))

/-- The module global `TRANSLATIONS`: namespace → (token → string). -/
abbrev Translations := List (String × List (String × String))

/-- `TRANSLATIONS[ns][tok]` with `except KeyError: result = token`. -/
def nsLookup (ts : Translations) (ns tok : String) : String :=
  match ts.lookup ns with
  | none => tok
  | some table =>
    match table.lookup tok with
    | none => tok
    | some v => v

/-! ## Token resolution (`__str__`) -/

/-- Final step of `TransToken.__str__` and `PluralTransToken.__str__`:
`result.format_map(self.parameters)` when the mapping is non-empty,
otherwise `result` unchanged. -/
def formatIfParams (result : String) (ps : Params) : Except PyErr String :=
  if ps.isEmpty then .ok result else pyFormatMap result ps

/-- `TransToken.__str__` (lines 136-153): untranslated or blank keys stay
literal; in dummy mode return `'#' * len(self.token)` immediately (no
parameter substitution); the UI namespace consults the active translator;
any other namespace consults `TRANSLATIONS`, falling back to the key. -/
def strPlain (tr : Translator) (ts : Translations) (ns tok : String) (ps : Params) :
    Except PyErr String :=
  if ns == NS_UNTRANSLATED || tok == "" then formatIfParams tok ps
  else if tr.isDummy then .ok (String.mk (List.replicate tok.length hashChar))
  else if ns == NS_UI then formatIfParams (tr.gettext tok) ps
  else formatIfParams (nsLookup ts ns tok) ps

/-- `PluralTransToken.__str__` (lines 226-246): fetch and int-convert the
`n` parameter first (`KeyError` becomes the plural-specific `ValueError`,
a failed conversion propagates as its own `ValueError`); then select and
translate like the plain case, except that namespaces other than
UI/untranslated raise. -/
def strPlural (tr : Translator) (ts : Translations) (ns tok : String) (ps : Params)
    (tokPlural : String) : Except PyErr String :=
  match ps.lookup "n" with
  | none => .error .valueErrorPluralMissing
  | some v =>
    match pyInt v with
    | none => .error (.valueErrorIntLiteral (pyValStr v))
    | some n =>
      if ns == NS_UNTRANSLATED || tok == "" then
        formatIfParams (if n == 1 then tok else tokPlural) ps
      else if tr.isDummy then .ok (String.mk (List.replicate tok.length hashChar))
      else if ns == NS_UI then formatIfParams (tr.ngettext tok tokPlural n) ps
      else .error (.valueErrorNamespaceNotAllowed ns)

/-- Stable insertion of a string into a sorted list; equal strings are
identical values, so this realises Python `list.sort()` on the resolved
child strings exactly. -/
def pySortInsert (x : String) : List String → List String
  | [] => [x]
  | y :: ys => if x ≤ y then x :: y :: ys else y :: pySortInsert x ys

/-- Python `items.sort()`: ascending ordinal order. -/
def pySort (l : List String) : List String := l.foldr pySortInsert []

mutual

/-- `str(token)` for every variant.  `JoinTransToken.__str__` (lines
270-276) first resolves the separator via `super().__str__()`, then each
child in order, optionally sorts the resolved strings, and joins. -/
def strTok (tr : Translator) (ts : Translations) : TransToken → Except PyErr String
  | .plain ns tok ps => strPlain tr ts ns tok ps
  | .plural ns tok ps tp => strPlural tr ts ns tok ps tp
  | .join ns tok ps children srt => do
    let sep ← strPlain tr ts ns tok ps
    let items ← strTokList tr ts children
    let items2 := if srt then pySort items else items
    .ok (String.intercalate sep items2)

/-- `[str(child) for child in self.children]`: the first raising child
aborts the comprehension. -/
def strTokList (tr : Translator) (ts : Translations) :
    List TransToken → Except PyErr (List String)
  | [] => .ok []
  | t :: rest => do
    let s ← strTok tr ts t
    let ss ← strTokList tr ts rest
    .ok (s :: ss)

end

/-! ## `load_basemodui` (lines 279-305)

The filesystem is passed as a map from path to decoded line list (the
UTF-16 decode is the library boundary); `none` is `FileNotFoundError`. -/

/-- Split a character list on a separator character, Python
`line.split(sep)` for a single-character separator. -/
def splitChar (sep : Char) : List Char → List (List Char)
  | [] => [[]]
  | c :: cs =>
    let r := splitChar sep cs
    if c = sep then [] :: r
    else
      match r with
      | [] => [[c]]
      | g :: gs => (c :: g) :: gs

/-- Python `value.replace("\\'", "'")`: rewrite each backslash-apostrophe
pair to an apostrophe, left to right. -/
def unescapeApos : List Char → List Char
  | [] => []
  | [c] => [c]
  | c :: d :: rest =>
    if c = bslash && d = apos then apos :: unescapeApos rest
    else c :: unescapeApos (d :: rest)

/-- One line of basemodui.txt: usable only if splitting on `"` yields
exactly five parts `__, key, __, value, __`, and the key starts with
`PETI_KEY_PREFIX`; the value has the escaped apostrophe rewritten. -/
def parseLine (line : String) : Option (String × String) :=
  match splitChar quoteChar line.data with
  | [_, key, _, value, _] =>
    if PETI_KEY_PREFIX.data.isPrefixOf key then
      some (String.mk key, String.mk (unescapeApos value))
    else none
  | _ => none

/-- The loop body of `load_basemodui`: survivors stored in order,
`trans_data[key] = value` overwriting duplicates. -/
def processLines (lines : List String) : List (String × String) :=
  lines.foldl
    (fun acc line =>
      match parseLine line with
      | some kv => dictInsert kv.1 kv.2 acc
      | none => acc)
    []

/-- `load_basemodui(basemod_loc)` as a transformer of `TRANSLATIONS`:
return unchanged if `NS_GAME` is already present; return unchanged on
`FileNotFoundError` (without marking anything); otherwise create the
`NS_GAME` table (before reading any line) and fill it. -/
def load_basemodui (fs : String → Option (List String)) (basemod_loc : String)
    (st : Translations) : Translations :=
  if (st.lookup NS_GAME).isSome then st
  else
    match fs basemod_loc with
    | none => st
    | some lines => (NS_GAME, processLines lines) :: st

/-! ## `set_language` (lines 342-411)

State and environment for the language switch.  Sinks (tk widgets, menus)
and refresh callbacks are opaque to the core, so they are modelled by
identifiers, and the pushes into them by an ordered event trace. -/

/-- Process-wide mutable state touched by `set_language`. -/
structure LocState where
  translator : Translator
  translations : Translations
  propFlags : List String
  appliedTokens : List (Nat × TransToken)
  appliedMenuTokens : List (Nat × List (Nat × TransToken))
  callbacks : List Nat
deriving Repr

/-- Environment of a `set_language` call: the result of opening each
`.mo` file under the i18n folder (keyed by file name), and whether
`from tkinter import font` succeeds. -/
structure LangEnv where
  moFiles : String → Option GNUCatalog
  fontImportable : Bool

/-- Observable actions of the refresh pass, in order. -/
inductive Event where
  | setText (w : Nat) (s : String)
  | setMenuLabel (m i : Nat) (s : String)
  | callCb (c : Nat)
  | logWarning
deriving DecidableEq, Repr

/-- Modelled from the spec: `gettext_mod._expand_lang` is library code —
"Expand `code` into an ordered, most-specific-first fallback chain of
candidate codes (e.g., a region-qualified code expands to itself followed
by its base language code)." -/
def expandLang (code : String) : List String :=
  match code.data.splitOn '_' with
  | base :: _ :: _ => [code, String.mk base]
  | _ => [code]

/-- `PROP_FLAGS_DEFAULT['lang_' + lang] = True` for each candidate. -/
def flagInsert (f : String) (fl : List String) : List String :=
  if fl.contains f then fl else fl ++ [f]

/-- The candidate loop: open `lang + '.mo'` for each candidate (the
source's extra `.format(lang)` call is the identity for brace-free
language codes), first success wins. -/
def findCatalog (env : LangEnv) : List String → Option GNUCatalog
  | [] => none
  | lang :: rest =>
    match env.moFiles (lang ++ ".mo") with
    | some c => some c
    | none => findCatalog env rest

/-- The translator installed by `set_language`: the first candidate whose
catalog loads; otherwise the dummy translator iff the code is the literal
`"dummy"`; otherwise the passthrough `NullTranslations`. -/
def pickTranslator (env : LangEnv) (lang_code : String) : Translator :=
  match findCatalog env (expandLang lang_code) with
  | some c => .gnu c
  | none => if lang_code == "dummy" then .dummy else .null

/-- The non-fatal warning logged when no catalog was found, the code is
not `"dummy"`, and `'en'` is not among the candidates. -/
def warnEvents (env : LangEnv) (lang_code : String) : List Event :=
  match findCatalog env (expandLang lang_code) with
  | some _ => []
  | none =>
    if lang_code == "dummy" then []
    else if (expandLang lang_code).contains "en" then [] else [.logWarning]

/-- The key of the language-specific sans-serif override. -/
def sansSerifKey : String := "__LANG_USE_SANS_SERIF__"

/-- True when the new translator maps the sans-serif key to `YES` but
`from tkinter import font` fails: `set_language` then returns early,
before the refresh pass. -/
def sansSerifSkips (env : LangEnv) (lang_code : String) : Bool :=
  (pickTranslator env lang_code).gettext sansSerifKey == "YES" && !env.fontImportable

/-- `text_widget['text'] = str(token)` for every remembered widget, in
order; a raising token aborts. -/
def renderWidgets (tr : Translator) (ts : Translations) :
    List (Nat × TransToken) → Except PyErr (List Event)
  | [] => .ok []
  | (w, tok) :: rest => do
    let s ← strTok tr ts tok
    let evs ← renderWidgets tr ts rest
    .ok (.setText w s :: evs)

/-- `menu.entryconfigure(index, label=str(token))` for one menu's map. -/
def renderMenuEntries (tr : Translator) (ts : Translations) (m : Nat) :
    List (Nat × TransToken) → Except PyErr (List Event)
  | [] => .ok []
  | (i, tok) :: rest => do
    let s ← strTok tr ts tok
    let evs ← renderMenuEntries tr ts m rest
    .ok (.setMenuLabel m i s :: evs)

/-- The nested loop over `_applied_menu_tokens`. -/
def renderMenus (tr : Translator) (ts : Translations) :
    List (Nat × List (Nat × TransToken)) → Except PyErr (List Event)
  | [] => .ok []
  | (m, entries) :: rest => do
    let evs ← renderMenuEntries tr ts m entries
    let evs2 ← renderMenus tr ts rest
    .ok (evs ++ evs2)

/-- `set_language(lang_code)`: expand the code, extend the property
flags, install the picked translator, then — unless the sans-serif
override applies and the font module is unavailable, in which case the
function returns early — re-render every remembered widget and menu entry
and invoke every registered callback in registration order.  (The
source's language-specific font-configuration loop body is empty and has
no further effect.)  Returns the new state and the ordered event trace. -/
def set_language (env : LangEnv) (lang_code : String) (st : LocState) :
    Except PyErr (LocState × List Event) :=
  let flags := (expandLang lang_code).foldl (fun fl lang => flagInsert ("lang_" ++ lang) fl)
      st.propFlags
  let st2 : LocState :=
    ⟨pickTranslator env lang_code, st.translations, flags,
      st.appliedTokens, st.appliedMenuTokens, st.callbacks⟩
  if sansSerifSkips env lang_code then .ok (st2, warnEvents env lang_code)
  else do
    let ws ← renderWidgets st2.translator st2.translations st2.appliedTokens
    let ms ← renderMenus st2.translator st2.translations st2.appliedMenuTokens
    .ok (st2, warnEvents env lang_code ++ ws ++ ms ++ st2.callbacks.map Event.callCb)

/-! ## Claim theorems -/

/-- C1 counterexample: with the dummy translator active,
`str(TransToken.ui("Hi {name}", name="Bob"))` returns `'#' * 9`, not the
per-character substitution of the key with parameters substituted — the
dummy branch of `TransToken.__str__` returns before any `format_map`, and
`DummyTranslations.gettext` itself turns the braces into `#`, so neither
`"## Bob"` nor a placeholder-preserving string can result. -/
theorem C1_counterexample :
    strTok Translator.dummy []
      (TransTokenUi "Hi \x7bname\x7d" [("name", PyVal.str "Bob")]) = .ok "#########"
    ∧ dummySub "Hi \x7bname\x7d" = "## ######"
    ∧ ("#########" : String) ≠ "## Bob"
    ∧ ("#########" : String) ≠ "## ######" := by decide

/-- C1 (amended): in dummy mode, resolving a non-empty, non-UNTRANSLATED
plain token returns `#` repeated to the length of its key, with no
parameter substitution (the result is independent of the parameters);
the per-character dummy substitution — alphanumerics and braces to `#`,
everything else verbatim, length preserved — is what
`DummyTranslations.gettext` computes, but token resolution does not call
it. -/
theorem C1_dummy_mode (ts : Translations) (ns tok : String) (ps : Params)
    (h1 : ns ≠ NS_UNTRANSLATED) (h2 : tok ≠ "") :
    strTok Translator.dummy ts (TransToken.plain ns tok ps)
        = .ok (String.mk (List.replicate tok.length hashChar))
    ∧ strTok Translator.dummy ts (TransToken.plain ns tok ps)
        = strTok Translator.dummy ts (TransToken.plain ns tok [])
    ∧ (dummySub tok).length = tok.length
    ∧ (dummySub tok).data = tok.data.map
        (fun c => if c.isAlphanum || c = lbrace || c = rbrace then hashChar else c) := by
  have hb : (ns == NS_UNTRANSLATED || tok == "") = false := by
    simp only [Bool.or_eq_false_iff, beq_eq_false_iff_ne, ne_eq]
    exact ⟨h1, h2⟩
  have hmain : ∀ qs : Params, strTok Translator.dummy ts (TransToken.plain ns tok qs)
      = .ok (String.mk (List.replicate tok.length hashChar)) := by
    intro qs
    show strPlain Translator.dummy ts ns tok qs = _
    unfold strPlain
    rw [hb]
    simp [Translator.isDummy]
  refine ⟨hmain ps, ?_, ?_, ?_⟩
  · rw [hmain ps, hmain []]
  · obtain ⟨cs⟩ := tok
    simp [dummySub, String.length]
  · simp [dummySub]

/-- C1 witness. -/
theorem C1_dummy_mode_witness :
    strTok Translator.dummy [] (TransToken.plain NS_UI "ab" [("x", PyVal.str "y")])
        = .ok (String.mk (List.replicate ("ab".length) hashChar))
    ∧ strTok Translator.dummy [] (TransToken.plain NS_UI "ab" [("x", PyVal.str "y")])
        = strTok Translator.dummy [] (TransToken.plain NS_UI "ab" [])
    ∧ (dummySub "ab").length = "ab".length
    ∧ (dummySub "ab").data = "ab".data.map
        (fun c => if c.isAlphanum || c = lbrace || c = rbrace then hashChar else c) :=
  C1_dummy_mode [] NS_UI "ab" [("x", PyVal.str "y")] (by decide) (by decide)

/-- C2: an UNTRANSLATED-namespace token with empty parameters resolves to
exactly its key, under every translator (including dummy) and catalog
state; with parameters present, `format_map` is applied to the key
itself.  No catalog is consulted: the conclusion does not depend on the
translator or on `TRANSLATIONS`. -/
theorem C2_untranslated_verbatim (tr : Translator) (ts : Translations)
    (s : String) (ps : Params) :
    (ps = [] → strTok tr ts (TransToken.plain NS_UNTRANSLATED s ps) = .ok s)
    ∧ (ps ≠ [] → strTok tr ts (TransToken.plain NS_UNTRANSLATED s ps) = pyFormatMap s ps) := by
  constructor
  · intro h
    simp [strTok, strPlain, formatIfParams, h]
  · intro h
    simp [strTok, strPlain, formatIfParams, h]

/-- C2 witness. -/
theorem C2_untranslated_verbatim_witness :
    strTok Translator.dummy [] (TransToken.plain NS_UNTRANSLATED "abc" []) = .ok "abc" :=
  (C2_untranslated_verbatim Translator.dummy [] "abc" []).1 rfl

/-- C4: resolving any Plural token whose parameters lack `n` raises the
plural-specific ValueError, for every namespace, key (including empty),
parameter mapping and translation mode; resolution is a pure function of
the state, so no catalog state changes. -/
theorem C4_plural_missing_n (tr : Translator) (ts : Translations)
    (ns tok tp : String) (ps : Params) (h : ps.lookup "n" = none) :
    strTok tr ts (TransToken.plural ns tok ps tp) = .error PyErr.valueErrorPluralMissing := by
  simp [strTok, strPlural, h]

/-- C4 witness. -/
theorem C4_plural_missing_n_witness :
    strTok Translator.dummy [] (TransToken.plural NS_GAME "" [("m", PyVal.int 3)] "xs")
      = .error PyErr.valueErrorPluralMissing :=
  C4_plural_missing_n Translator.dummy [] NS_GAME "" "xs" [("m", PyVal.int 3)] (by decide)

/-- C5 counterexample: two resolutions the claim says must fail with the
namespace error, but which succeed — a Plural token in the GAME namespace
with an empty key (the blank-key branch runs first and picks the plural
form), and a Plural token in the GAME namespace under the dummy
translator (the dummy branch returns placeholder text before the
namespace check). -/
theorem C5_counterexample :
    strTok Translator.null [] (TransToken.plural NS_GAME "" [("n", PyVal.int 2)] "xs")
      = .ok "xs"
    ∧ strTok Translator.dummy [] (TransToken.plural NS_GAME "x" [("n", PyVal.int 1)] "xs")
      = .ok "#" := by decide

/-- C5 (amended): a Plural token whose namespace is neither UI nor
UNTRANSLATED fails with the namespace ValueError at resolution — provided
additionally that its key is non-empty and the active translator is not
the dummy translator (with an empty key the blank-key branch resolves it,
and in dummy mode the placeholder branch does). -/
theorem C5_plural_bad_namespace (tr : Translator) (ts : Translations)
    (ns tok tp : String) (ps : Params) (v : PyVal) (n : Int)
    (hns1 : ns ≠ NS_UI) (hns2 : ns ≠ NS_UNTRANSLATED) (htok : tok ≠ "")
    (hdummy : tr.isDummy = false)
    (hn : ps.lookup "n" = some v) (hv : pyInt v = some n) :
    strTok tr ts (TransToken.plural ns tok ps tp)
      = .error (PyErr.valueErrorNamespaceNotAllowed ns) := by
  simp [strTok, strPlural, hn, hv, hns1, hns2, htok, hdummy]

/-- C5 witness. -/
theorem C5_plural_bad_namespace_witness :
    strTok Translator.null [] (TransToken.plural NS_GAME "x" [("n", PyVal.int 1)] "xs")
      = .error (PyErr.valueErrorNamespaceNotAllowed NS_GAME) :=
  C5_plural_bad_namespace Translator.null [] NS_GAME "x" "xs" [("n", PyVal.int 1)]
    (PyVal.int 1) 1 (by decide) (by decide) (by decide) (by decide) (by decide) (by decide)

/-- C6 counterexample: a token whose key is a single space is falsy, but
resolving it under the passthrough translator returns the space itself,
not the empty string — `TransToken.__str__` treats only the exactly-empty
key as blank (`not self.token`), while `__bool__` also checks
`isspace()`. -/
theorem C6_counterexample :
    boolTok (TransToken.plain NS_UI " " []) = false
    ∧ strTok Translator.null [] (TransToken.plain NS_UI " " []) = .ok " "
    ∧ (" " : String) ≠ "" := by decide

/-- C6 (amended): every token whose key is empty or whitespace-only is
falsy in boolean contexts; a Plain token whose key is exactly the empty
string resolves to the empty string regardless of namespace, parameters,
language or translation mode (a whitespace-only key instead goes through
the normal translation path). -/
theorem C6_blank_tokens (t : TransToken) (tr : Translator) (ts : Translations)
    (ns : String) (ps : Params)
    (h : tokenOf t = "" ∨ pyIsSpace (tokenOf t) = true) :
    boolTok t = false
    ∧ strTok tr ts (TransToken.plain ns "" ps) = .ok "" := by
  constructor
  · rcases h with h | h
    · simp [boolTok, h]
    · simp [boolTok, h]
  · show strPlain tr ts ns "" ps = _
    unfold strPlain
    have hc : (ns == NS_UNTRANSLATED || ("" : String) == "") = true := by simp
    rw [hc]
    rcases ps with _ | ⟨kv, rest⟩
    · rfl
    · rfl

/-- C6 witness. -/
theorem C6_blank_tokens_witness :
    boolTok (TransToken.plain NS_UI " \t" []) = false
    ∧ strTok Translator.dummy [] (TransToken.plain NS_GAME "" [("a", PyVal.int 1)]) = .ok "" :=
  C6_blank_tokens (TransToken.plain NS_UI " \t" []) Translator.dummy [] NS_GAME
    [("a", PyVal.int 1)] (Or.inr (by decide))

/-- C7 counterexample: with a filesystem where the file is absent at one
path but present at another, a first call that found nothing leaves the
table unchanged (and unmarked), and a subsequent call is not a no-op —
it loads the GAME table. -/
theorem C7_counterexample :
    load_basemodui
      (fun loc => if loc == "b" then some ["\"PORTAL2_PuzzleEditor_x\" \"Val\""] else none)
      "a" [] = []
    ∧ load_basemodui
      (fun loc => if loc == "b" then some ["\"PORTAL2_PuzzleEditor_x\" \"Val\""] else none)
      "b" [] = [(NS_GAME, [("PORTAL2_PuzzleEditor_x", "Val")])]
    ∧ ([(NS_GAME, [("PORTAL2_PuzzleEditor_x", "Val")])] : Translations) ≠ [] := by decide

/-- C7 (amended): `load_basemodui` is a no-op whenever the GAME namespace
is already present in `TRANSLATIONS`; a missing file is not an error and
leaves the table unchanged — in particular the namespace stays absent, so
the load is re-attempted rather than marked done; and once a call has
opened its file successfully (even one with no usable lines), every
subsequent call is a no-op regardless of its argument or of the
filesystem state. -/
theorem C7_load_once (fs fs2 : String → Option (List String))
    (loc loc2 : String) (st : Translations) :
    ((st.lookup NS_GAME).isSome = true → load_basemodui fs loc st = st)
    ∧ (fs loc = none → load_basemodui fs loc st = st)
    ∧ (∀ lines, fs loc = some lines →
        load_basemodui fs2 loc2 (load_basemodui fs loc st) = load_basemodui fs loc st) := by
  refine ⟨?_, ?_, ?_⟩
  · intro h
    simp [load_basemodui, h]
  · intro h
    unfold load_basemodui
    rw [h]
    simp
  · intro lines h
    by_cases hg : (st.lookup NS_GAME).isSome = true
    · simp [load_basemodui, hg]
    · have h1 : load_basemodui fs loc st = (NS_GAME, processLines lines) :: st := by
        unfold load_basemodui
        rw [h]
        simp [hg]
      rw [h1]
      unfold load_basemodui
      simp [List.lookup]

/-- C7 witness. -/
theorem C7_load_once_witness :
    load_basemodui (fun _ => none) "x" [] = [] :=
  (C7_load_once (fun _ => none) (fun _ => none) "x" "x" []).2.1 rfl

/-- C9 counterexample: a Join token with zero children whose separator
token has parameters that do not match its placeholders raises a
KeyError from the separator's own `format_map` — the separator is always
resolved first, so the join does not yield the empty string. -/
theorem C9_counterexample :
    strTok Translator.null []
      (TransToken.join NS_UNTRANSLATED "\x7bx\x7d" [("y", PyVal.str "1")] [] false)
      = .error (PyErr.keyError "x")
    ∧ Except.error (PyErr.keyError "x") ≠ (Except.ok "" : Except PyErr String) := by decide

/-- C9 (amended): for every separator token whose own resolution
succeeds, a Join with zero children resolves to the empty string, and a
Join with exactly one child resolves exactly as the child does (the
separator is never inserted), under every language, catalog state and
mode, with or without sorting. -/
theorem C9_join_trivial (tr : Translator) (ts : Translations)
    (ns tok : String) (ps : Params) (srt : Bool) (a : TransToken) (sep : String)
    (h : strPlain tr ts ns tok ps = .ok sep) :
    strTok tr ts (TransToken.join ns tok ps [] srt) = .ok ""
    ∧ strTok tr ts (TransToken.join ns tok ps [a] srt) = strTok tr ts a := by
  constructor
  · simp only [strTok, strTokList, h]
    cases srt <;> rfl
  · rcases hc : strTok tr ts a with e | s
    · simp only [strTok, strTokList, h, hc]
      rfl
    · simp only [strTok, strTokList, h, hc]
      cases srt <;> rfl

/-- C9 witness. -/
theorem C9_join_trivial_witness :
    strTok Translator.null [] (TransToken.join NS_UI ", " [] [] true) = .ok ""
    ∧ strTok Translator.null []
        (TransToken.join NS_UI ", " [] [TransToken.plain NS_UNTRANSLATED "a" []] true)
      = strTok Translator.null [] (TransToken.plain NS_UNTRANSLATED "a" []) :=
  C9_join_trivial Translator.null [] NS_UI ", " [] true
    (TransToken.plain NS_UNTRANSLATED "a" []) ", " (by decide)

/-- C10: resolving a Plural token converts its `n` parameter with Python
`int()`: a string value that parses as 1 is accepted and selects the
singular key (shown for the UNTRANSLATED namespace, where the selected
key is returned up to parameter substitution), while an `n` value that is
present but not an integer literal raises the conversion's own
ValueError, which is distinct from the plural-specific missing-`n`
error. -/
theorem C10_plural_int_conversion (tr : Translator) (ts : Translations)
    (ns tok tp : String) (ps : Params) (s : String)
    (hn : ps.lookup "n" = some (PyVal.str s)) :
    (pyIntOfChars s.data = some 1 → ns = NS_UNTRANSLATED →
        strTok tr ts (TransToken.plural ns tok ps tp) = formatIfParams tok ps)
    ∧ (pyIntOfChars s.data = none →
        strTok tr ts (TransToken.plural ns tok ps tp)
          = .error (PyErr.valueErrorIntLiteral s)
        ∧ PyErr.valueErrorIntLiteral s ≠ PyErr.valueErrorPluralMissing) := by
  constructor
  · intro hi hns
    subst hns
    simp [strTok, strPlural, hn, pyInt, hi]
  · intro hi
    refine ⟨?_, by simp⟩
    simp [strTok, strPlural, hn, pyInt, hi, pyValStr]

/-- C10 witness. -/
theorem C10_plural_int_conversion_witness :
    (pyIntOfChars ("1").data = some 1 → NS_UNTRANSLATED = NS_UNTRANSLATED →
        strTok Translator.null [] (TransToken.plural NS_UNTRANSLATED "cat"
          [("n", PyVal.str "1")] "cats")
          = formatIfParams "cat" [("n", PyVal.str "1")])
    ∧ (pyIntOfChars ("1").data = none →
        strTok Translator.null [] (TransToken.plural NS_UNTRANSLATED "cat"
          [("n", PyVal.str "1")] "cats")
          = .error (PyErr.valueErrorIntLiteral "1")
        ∧ PyErr.valueErrorIntLiteral "1" ≠ PyErr.valueErrorPluralMissing) :=
  C10_plural_int_conversion Translator.null [] NS_UNTRANSLATED "cat" "cats"
    [("n", PyVal.str "1")] "1" (by decide)

/-! ## Equality versus hashing (claim C3) -/

/-- A successful association-list lookup is a member. -/
theorem lookup_mem {l : Params} {k : String} {v : PyVal}
    (h : l.lookup k = some v) : (k, v) ∈ l := by
  induction l with
  | nil => simp [List.lookup] at h
  | cons kv rest ih =>
    rcases kv with ⟨k2, v2⟩
    by_cases hk : (k == k2) = true
    · have hkk : k = k2 := eq_of_beq hk
      subst hkk
      simp [List.lookup] at h
      subst h
      exact List.mem_cons_self _ _
    · have hk2 : (k == k2) = false := by
        cases hb : (k == k2)
        · rfl
        · exact absurd hb hk
      simp [List.lookup, hk2] at h
      exact List.mem_cons_of_mem _ (ih h)

/-- Under distinct keys, membership determines the lookup. -/
theorem mem_lookup_of_nodup {l : Params} (hnd : keysNodupb l = true) {k : String} {v : PyVal}
    (h : (k, v) ∈ l) : l.lookup k = some v := by
  induction l with
  | nil => simp at h
  | cons kv rest ih =>
    rcases kv with ⟨k2, v2⟩
    rw [keysNodupb, Bool.and_eq_true] at hnd
    obtain ⟨hnd1, hnd2⟩ := hnd
    rcases List.mem_cons.mp h with h1 | h1
    · obtain ⟨hk, hv⟩ := Prod.mk.injEq .. |>.mp h1
      subst hk
      subst hv
      simp [List.lookup]
    · have hne : k ≠ k2 := by
        have := List.all_eq_true.mp hnd1 _ h1
        simpa using this
      have hk2 : (k == k2) = false := by
        cases hb : (k == k2)
        · rfl
        · exact absurd (eq_of_beq hb) hne
      simp [List.lookup, hk2]
      exact ih hnd2 h1

/-- Dict-equal parameter mappings have the same pairs. -/
theorem dictEq_mem_iff {p q : Params} (h : dictEq p q = true) (x : String × PyVal) :
    x ∈ p ↔ x ∈ q := by
  rw [dictEq, Bool.and_eq_true] at h
  obtain ⟨h1, h2⟩ := h
  rcases x with ⟨k, v⟩
  constructor
  · intro hm
    exact lookup_mem (eq_of_beq (List.all_eq_true.mp h1 _ hm))
  · intro hm
    exact lookup_mem (eq_of_beq (List.all_eq_true.mp h2 _ hm))

/-- Dict-equal parameter mappings are equal as finite sets of pairs. -/
theorem dictEq_toFinset {p q : Params} (h : dictEq p q = true) :
    p.toFinset = q.toFinset := by
  apply Finset.ext
  intro x
  rw [List.mem_toFinset, List.mem_toFinset]
  exact dictEq_mem_iff h x

/-- With distinct keys, set-of-pairs equality implies dict equality. -/
theorem dictEq_of_toFinset {p q : Params} (hp : keysNodupb p = true)
    (hq : keysNodupb q = true) (h : p.toFinset = q.toFinset) : dictEq p q = true := by
  have hmem : ∀ x : String × PyVal, x ∈ p ↔ x ∈ q := by
    intro x
    have := Finset.ext_iff.mp h x
    rwa [List.mem_toFinset, List.mem_toFinset] at this
  rw [dictEq, Bool.and_eq_true]
  constructor
  · rw [List.all_eq_true]
    intro kv hm
    rcases kv with ⟨k, v⟩
    exact beq_iff_eq .. |>.mpr (mem_lookup_of_nodup hq ((hmem (k, v)).mp hm))
  · rw [List.all_eq_true]
    intro kv hm
    rcases kv with ⟨k, v⟩
    exact beq_iff_eq .. |>.mpr (mem_lookup_of_nodup hp ((hmem (k, v)).mpr hm))

/-- Boolean test for set-of-pairs equality of two parameter mappings. -/
def finsetEqB (p q : Params) : Bool := decide (p.toFinset = q.toFinset)

/-- With distinct keys on both sides, Python dict equality coincides with
set-of-pairs equality. -/
theorem dictEq_eq_finsetEqB {p q : Params} (hp : keysNodupb p = true)
    (hq : keysNodupb q = true) : dictEq p q = finsetEqB p q := by
  cases hd : dictEq p q
  · cases hf : finsetEqB p q
    · rfl
    · have := dictEq_of_toFinset hp hq (of_decide_eq_true hf)
      rw [hd] at this
      exact Bool.noConfusion this
  · rw [finsetEqB]
    exact (decide_eq_true (dictEq_toFinset hd)).symm

mutual

/-- The claim's equality relation, amended to what the code computes:
equal variant, equal namespace, equal key(s); Plain and Plural compare
parameters as sets of key/value pairs (order irrelevant); Join compares
children by sequence and ignores its own parameters and sort flag. -/
def eqSpecB : TransToken → TransToken → Bool
  | .plain ns1 t1 p1, .plain ns2 t2 p2 =>
      ns1 == ns2 && t1 == t2 && finsetEqB p1 p2
  | .plural ns1 t1 p1 tp1, .plural ns2 t2 p2 tp2 =>
      ns1 == ns2 && t1 == t2 && tp1 == tp2 && finsetEqB p1 p2
  | .join ns1 t1 _ c1 _, .join ns2 t2 _ c2 _ =>
      ns1 == ns2 && t1 == t2 && listEqSpecB c1 c2
  | _, _ => false

/-- Sequence comparison of children under `eqSpecB`. -/
def listEqSpecB : List TransToken → List TransToken → Bool
  | [], [] => true
  | a :: as2, b :: bs2 => eqSpecB a b && listEqSpecB as2 bs2
  | _, _ => false

end

mutual

/-- On well-formed tokens, the code's `__eq__` computes exactly the
amended structural equality. -/
theorem tokEq_eq_eqSpecB : ∀ (a b : TransToken), tokWF a = true → tokWF b = true →
    tokEq a b = eqSpecB a b
  | .plain ns1 t1 p1, .plain ns2 t2 p2, ha, hb => by
      rw [tokEq, eqSpecB, dictEq_eq_finsetEqB (by simpa [tokWF] using ha)
        (by simpa [tokWF] using hb)]
  | .plural ns1 t1 p1 tp1, .plural ns2 t2 p2 tp2, ha, hb => by
      rw [tokEq, eqSpecB, dictEq_eq_finsetEqB (by simpa [tokWF] using ha)
        (by simpa [tokWF] using hb)]
  | .join ns1 t1 p1 c1 s1, .join ns2 t2 p2 c2 s2, ha, hb => by
      rw [tokEq, eqSpecB, listTokEq_eq_listEqSpecB c1 c2
        (by simp [tokWF, Bool.and_eq_true] at ha; exact ha.2)
        (by simp [tokWF, Bool.and_eq_true] at hb; exact hb.2)]
  | .plain _ _ _, .plural _ _ _ _, _, _ => rfl
  | .plain _ _ _, .join _ _ _ _ _, _, _ => rfl
  | .plural _ _ _ _, .plain _ _ _, _, _ => rfl
  | .plural _ _ _ _, .join _ _ _ _ _, _, _ => rfl
  | .join _ _ _ _ _, .plain _ _ _, _, _ => rfl
  | .join _ _ _ _ _, .plural _ _ _ _, _, _ => rfl

/-- Children lists, element-wise. -/
theorem listTokEq_eq_listEqSpecB : ∀ (as2 bs2 : List TransToken),
    tokWFList as2 = true → tokWFList bs2 = true →
    listTokEq as2 bs2 = listEqSpecB as2 bs2
  | [], [], _, _ => rfl
  | a :: as2, b :: bs2, ha, hb => by
      rw [tokWFList, Bool.and_eq_true] at ha hb
      rw [listTokEq, listEqSpecB, tokEq_eq_eqSpecB a b ha.1 hb.1,
        listTokEq_eq_listEqSpecB as2 bs2 ha.2 hb.2]
  | [], _ :: _, _, _ => rfl
  | _ :: _, [], _, _ => rfl

end

mutual

/-- Tokens the code considers equal get equal hash inputs. -/
theorem tokEq_hash : ∀ (a b : TransToken), tokEq a b = true → tokHash a = tokHash b
  | .plain ns1 t1 p1, .plain ns2 t2 p2, h => by
      rw [tokEq, Bool.and_eq_true, Bool.and_eq_true] at h
      obtain ⟨⟨h1, h2⟩, h3⟩ := h
      rw [tokHash, tokHash, eq_of_beq h1, eq_of_beq h2, dictEq_toFinset h3]
  | .plural ns1 t1 p1 tp1, .plural ns2 t2 p2 tp2, h => by
      rw [tokEq, Bool.and_eq_true, Bool.and_eq_true, Bool.and_eq_true] at h
      obtain ⟨⟨⟨h1, h2⟩, h3⟩, h4⟩ := h
      rw [tokHash, tokHash, eq_of_beq h1, eq_of_beq h2, eq_of_beq h3, dictEq_toFinset h4]
  | .join ns1 t1 p1 c1 s1, .join ns2 t2 p2 c2 s2, h => by
      rw [tokEq, Bool.and_eq_true, Bool.and_eq_true] at h
      obtain ⟨⟨h1, h2⟩, h3⟩ := h
      rw [tokHash, tokHash, eq_of_beq h1, eq_of_beq h2, listTokEq_hash c1 c2 h3]
  | .plain _ _ _, .plural _ _ _ _, h => absurd h Bool.false_ne_true
  | .plain _ _ _, .join _ _ _ _ _, h => absurd h Bool.false_ne_true
  | .plural _ _ _ _, .plain _ _ _, h => absurd h Bool.false_ne_true
  | .plural _ _ _ _, .join _ _ _ _ _, h => absurd h Bool.false_ne_true
  | .join _ _ _ _ _, .plain _ _ _, h => absurd h Bool.false_ne_true
  | .join _ _ _ _ _, .plural _ _ _ _, h => absurd h Bool.false_ne_true

/-- Children lists, element-wise. -/
theorem listTokEq_hash : ∀ (as2 bs2 : List TransToken), listTokEq as2 bs2 = true →
    tokHashList as2 = tokHashList bs2
  | [], [], _ => rfl
  | a :: as2, b :: bs2, h => by
      rw [listTokEq, Bool.and_eq_true] at h
      rw [tokHashList, tokHashList, tokEq_hash a b h.1, listTokEq_hash as2 bs2 h.2]
  | [], _ :: _, h => absurd h Bool.false_ne_true
  | _ :: _, [], h => absurd h Bool.false_ne_true

end

/-- C3 counterexample: two Join tokens that differ only in their
parameter mappings (which are unequal both as dicts and as sets of
pairs) are nonetheless equal under the code's `__eq__` —
`JoinTransToken.__eq__` never reads `parameters`, contradicting the
claimed iff. -/
theorem C3_counterexample :
    tokEq (TransToken.join NS_UI "," [("a", PyVal.str "1")] [] false)
          (TransToken.join NS_UI "," [] [] false) = true
    ∧ dictEq [("a", PyVal.str "1")] [] = false
    ∧ ([("a", PyVal.str "1")] : Params) ≠ [] := by decide

/-- C3 (amended): for well-formed tokens (distinct parameter keys, as
Python dicts guarantee), two tokens are equal under the code's `__eq__`
iff they have the same variant, namespace and key(s), with Plain and
Plural comparing parameters as sets of key/value pairs (order
irrelevant) and Join comparing children by sequence while ignoring its
own parameters and sort flag; and tokens the code considers equal always
produce equal hash inputs (hence equal hashes). -/
theorem C3_equality_and_hash (a b : TransToken)
    (ha : tokWF a = true) (hb : tokWF b = true) :
    tokEq a b = eqSpecB a b ∧ (tokEq a b = true → tokHash a = tokHash b) :=
  ⟨tokEq_eq_eqSpecB a b ha hb, tokEq_hash a b⟩

/-- C3 witness: two Plain tokens with the same parameters in different
orders. -/
theorem C3_equality_and_hash_witness :
    tokEq (TransToken.plain NS_UI "k" [("a", PyVal.int 1), ("b", PyVal.int 2)])
          (TransToken.plain NS_UI "k" [("b", PyVal.int 2), ("a", PyVal.int 1)])
      = eqSpecB (TransToken.plain NS_UI "k" [("a", PyVal.int 1), ("b", PyVal.int 2)])
          (TransToken.plain NS_UI "k" [("b", PyVal.int 2), ("a", PyVal.int 1)])
    ∧ (tokEq (TransToken.plain NS_UI "k" [("a", PyVal.int 1), ("b", PyVal.int 2)])
          (TransToken.plain NS_UI "k" [("b", PyVal.int 2), ("a", PyVal.int 1)]) = true →
        tokHash (TransToken.plain NS_UI "k" [("a", PyVal.int 1), ("b", PyVal.int 2)])
          = tokHash (TransToken.plain NS_UI "k" [("b", PyVal.int 2), ("a", PyVal.int 1)])) :=
  C3_equality_and_hash
    (TransToken.plain NS_UI "k" [("a", PyVal.int 1), ("b", PyVal.int 2)])
    (TransToken.plain NS_UI "k" [("b", PyVal.int 2), ("a", PyVal.int 1)])
    (by decide) (by decide)

/-! ## The refresh pass (claim C8) -/

/-- A successful widget render pass pairs every remembered widget with a
push of its re-resolved token. -/
theorem renderWidgets_ok (tr : Translator) (ts : Translations) :
    ∀ (l : List (Nat × TransToken)) (ws : List Event),
    renderWidgets tr ts l = .ok ws →
    List.Forall₂ (fun (p : Nat × TransToken) e =>
      ∃ s, strTok tr ts p.2 = .ok s ∧ e = Event.setText p.1 s) l ws := by
  intro l
  induction l with
  | nil =>
    intro ws h
    rw [renderWidgets] at h
    cases h
    exact List.Forall₂.nil
  | cons p rest ih =>
    intro ws h
    rcases p with ⟨w, tok⟩
    rw [renderWidgets] at h
    rcases hs : strTok tr ts tok with e | s
    · rw [hs] at h
      cases h
    · rw [hs] at h
      rcases hr : renderWidgets tr ts rest with e2 | evs
      · rw [hr] at h
        cases h
      · rw [hr] at h
        cases h
        exact List.Forall₂.cons ⟨s, hs, rfl⟩ (ih evs hr)

/-- C8 counterexample: a call to `set_language` whose `.mo` catalog loads
and maps `__LANG_USE_SANS_SERIF__` to `YES` while the tkinter font module
is unavailable returns early: it succeeds, but emits no events at all,
although a refresh callback is registered — the refresh pass did not
run. -/
theorem C8_counterexample :
    (set_language
        ⟨fun nm => if nm == "xx.mo" then some ⟨[(sansSerifKey, "YES")], []⟩ else none, false⟩
        "xx" ⟨Translator.null, [], [], [], [], [0]⟩).map (fun r => r.2) = .ok []
    ∧ (⟨Translator.null, [], [], [], [], [0]⟩ : LocState).callbacks = [0]
    ∧ Event.callCb 0 ∉ ([] : List Event) := by
  refine ⟨by rfl, rfl, by simp⟩

/-- C8 (amended): whenever the early sans-serif return does not trigger,
a successful `set_language` call ends with the refresh pass: its event
trace is exactly the optional fallback warning, then one re-render of
every bound widget from its remembered token (in order, under the newly
installed translator), then the re-renders of every remembered menu
entry, and finally one invocation of every registered callback, in
registration order. -/
theorem C8_refresh_pass (env : LangEnv) (lang_code : String) (st st2 : LocState)
    (evs : List Event)
    (hfont : sansSerifSkips env lang_code = false)
    (hok : set_language env lang_code st = .ok (st2, evs)) :
    ∃ ws ms,
      evs = warnEvents env lang_code ++ ws ++ ms ++ st.callbacks.map Event.callCb
      ∧ List.Forall₂ (fun (p : Nat × TransToken) e =>
          ∃ s, strTok st2.translator st2.translations p.2 = .ok s ∧ e = Event.setText p.1 s)
        st.appliedTokens ws
      ∧ renderMenus st2.translator st2.translations st.appliedMenuTokens = .ok ms := by
  unfold set_language at hok
  rw [hfont] at hok
  simp only [Bool.false_eq_true, if_false] at hok
  rcases hw : renderWidgets (pickTranslator env lang_code) st.translations st.appliedTokens
    with e | ws
  · rw [hw] at hok
    cases hok
  · rw [hw] at hok
    rcases hm : renderMenus (pickTranslator env lang_code) st.translations st.appliedMenuTokens
      with e2 | ms
    · rw [hm] at hok
      cases hok
    · rw [hm] at hok
      cases hok
      exact ⟨ws, ms, rfl, renderWidgets_ok _ _ _ _ hw, hm⟩

/-- C8 witness: a passthrough language switch with one bound widget and
one registered callback. -/
theorem C8_refresh_pass_witness :
    ∃ ws ms,
      ([Event.setText 0 "hi", Event.callCb 5] : List Event)
        = warnEvents ⟨fun _ => none, true⟩ "en"
            ++ ws ++ ms
            ++ (⟨Translator.null, [], [],
                  [(0, TransToken.plain NS_UNTRANSLATED "hi" [])], [], [5]⟩ : LocState).callbacks.map
                Event.callCb
      ∧ List.Forall₂ (fun (p : Nat × TransToken) e =>
          ∃ s, strTok (⟨Translator.null, [], ["lang_en"],
                [(0, TransToken.plain NS_UNTRANSLATED "hi" [])], [], [5]⟩ : LocState).translator
              (⟨Translator.null, [], ["lang_en"],
                [(0, TransToken.plain NS_UNTRANSLATED "hi" [])], [], [5]⟩ : LocState).translations
              p.2 = .ok s ∧ e = Event.setText p.1 s)
          (⟨Translator.null, [], [],
            [(0, TransToken.plain NS_UNTRANSLATED "hi" [])], [], [5]⟩ : LocState).appliedTokens ws
      ∧ renderMenus (⟨Translator.null, [], ["lang_en"],
            [(0, TransToken.plain NS_UNTRANSLATED "hi" [])], [], [5]⟩ : LocState).translator
          (⟨Translator.null, [], ["lang_en"],
            [(0, TransToken.plain NS_UNTRANSLATED "hi" [])], [], [5]⟩ : LocState).translations
          (⟨Translator.null, [], [],
            [(0, TransToken.plain NS_UNTRANSLATED "hi" [])], [], [5]⟩ : LocState).appliedMenuTokens
        = .ok ms :=
  C8_refresh_pass ⟨fun _ => none, true⟩ "en"
    ⟨Translator.null, [], [], [(0, TransToken.plain NS_UNTRANSLATED "hi" [])], [], [5]⟩
    ⟨Translator.null, [], ["lang_en"], [(0, TransToken.plain NS_UNTRANSLATED "hi" [])], [], [5]⟩
    [Event.setText 0 "hi", Event.callCb 5] (by rfl) (by rfl)
